import Mathlib

/-!
Verification of the "what-to-watch" REST backend: a shallow embedding of the
user service, the movie controller handlers, the middleware chain of
`Controller.addRoute`, the to-watch list operations and the email pattern of
the user entity, together with theorems settling the specified properties.

Persistence is modelled as explicit state passing: the users collection is a
list of stored documents in insertion order (`findOne` returns the first
match, `create` appends).  The password digest `createSHA256` lives in
`src/utils/common.ts`, outside the embedded sources, so every definition that
uses it takes the digest function as an explicit argument `hash`.
-/

namespace WhatToWatch

/-- `CreateUserDto` from `modules/user/dto/create-user.dto.ts`: the validated
shape of a registration request. -/
structure CreateUserDto where
  email : String
  name : String
  avatarUri : String
  password : String
deriving Repr, DecidableEq

/-- `LoginUserDto`: the shape of a login request. -/
structure LoginUserDto where
  email : String
  password : String
deriving Repr, DecidableEq

/-- The persisted fields of `UserEntity` (`modules/user/user.entity.ts`). -/
structure UserEntity where
  email : String
  avatarUri : String
  name : String
  password : String
deriving Repr, DecidableEq

/-- The `UserEntity` constructor: copies `email`, `avatarUri`, `name` and the
(raw) `password` from the incoming data. -/
def UserEntity.ofDto (dto : CreateUserDto) : UserEntity :=
  { email := dto.email
    avatarUri := dto.avatarUri
    name := dto.name
    password := dto.password }

/-- The error message thrown by `UserEntity.setPassword` on a bad length. -/
def passwordLengthError : String :=
  "Длина пароля должна быть не менее 6 и не более 12 символов"

/-- `UserEntity.setPassword`: throws when the password length is outside
[6,12], otherwise overwrites the stored password with the salted digest. -/
def UserEntity.setPassword (hash : String → String → String)
    (u : UserEntity) (password salt : String) : Except String UserEntity :=
  if password.length < 6 || password.length > 12 then
    .error passwordLengthError
  else
    .ok { u with password := hash password salt }

/-- `UserEntity.verifyPassword`: compares the salted digest of the supplied
password with the stored password field. -/
def UserEntity.verifyPassword (hash : String → String → String)
    (u : UserEntity) (password salt : String) : Bool :=
  hash password salt == u.password

/-- The users collection, in insertion order. -/
abbrev UserDb := List UserEntity

namespace UserService

/-- `UserService.findByEmail`: `userModel.findOne({email})`, the first stored
document whose email matches. -/
def findByEmail (db : UserDb) (email : String) : Option UserEntity :=
  db.find? (fun u => u.email == email)

/-- `UserService.create`: builds the entity from the DTO, sets the salted
password digest (which may throw), then persists the document.  On a throw
nothing reaches the persistence layer, so no new state is produced. -/
def create (hash : String → String → String)
    (dto : CreateUserDto) (salt : String) (db : UserDb) :
    Except String (UserEntity × UserDb) := do
  let user := UserEntity.ofDto dto
  let user ← user.setPassword hash dto.password salt
  return (user, db ++ [user])

/-- `UserService.findOrCreate`: returns the already-stored user with the
DTO's email when one exists, otherwise creates one. -/
def findOrCreate (hash : String → String → String)
    (dto : CreateUserDto) (salt : String) (db : UserDb) :
    Except String (UserEntity × UserDb) :=
  match findByEmail db dto.email with
  | some existedUser => .ok (existedUser, db)
  | none => create hash dto salt db

/-- `UserService.verifyUser`: finds the user by email and returns it exactly
when the salted digest of the supplied password matches the stored one;
returns `none` otherwise. -/
def verifyUser (hash : String → String → String)
    (dto : LoginUserDto) (salt : String) (db : UserDb) : Option UserEntity :=
  match findByEmail db dto.email with
  | none => none
  | some user =>
    if user.verifyPassword hash dto.password salt then some user else none

end UserService

/-- `HttpError` (`common/errors/http-error.ts`): an HTTP status code, a
message and the name of the originating component, as passed to its
constructor in the controllers. -/
structure HttpError where
  statusCode : Nat
  message : String
  detail : String
deriving Repr, DecidableEq

/-- The outcome of running a request handler: either a thrown `HttpError`
(normalised by the top-level exception filter) or a response with a status
code and a body. -/
inductive HandlerResult (β : Type) where
  | error (e : HttpError)
  | response (status : Nat) (body : β)
deriving Repr, DecidableEq

/-- Modelled from the spec: `MovieService.exists` — the lookup behind the
document-existence check, which "issues a lookup for a referenced document
(movie) and fails with Not-Found if absent".  The movie service's source
file is not among the embedded sources; movies are modelled by their stored
ids, and the lookup returns whether a movie with the given id is stored. -/
def MovieService.exists (movies : List String) (movieId : String) : Bool :=
  movies.contains movieId

/-- Modelled from the spec: the to-watch document of one user, "per-user
ordered/unordered set of movie references", with its `list` field read by
`getToWatchList`. -/
structure ToWatchDoc where
  list : List String
deriving Repr, DecidableEq

/-- Modelled from the spec: `ToWatchService.addToToWatch` for one user's
list.  The service's source file is not among the embedded sources; per the
spec invariant "a movie id may appear at most once per user's list", adding
an id already present leaves the list unchanged, otherwise the id is
appended. -/
def ToWatchService.addToToWatch (list : List String) (movieId : String) :
    List String :=
  if list.contains movieId then list else list ++ [movieId]

/-- Modelled from the spec: `ToWatchService.deleteFromToWatch` for one
user's list — removes every occurrence of the given movie id. -/
def ToWatchService.deleteFromToWatch (list : List String) (movieId : String) :
    List String :=
  list.filter (fun id => id ≠ movieId)

/-- A stored movie document, reduced to the fields the embedded handlers
read; the response mapper `fillDto` is modelled as the identity on it. -/
structure MovieEntity where
  id : String
  rating : Nat
deriving Repr, DecidableEq

namespace MovieController

/-- `MovieController.getById` as a function of the result of
`movieService.findById`: throws a 404 `HttpError` naming `MovieController`
when the lookup returned nothing, otherwise responds 200 with the movie. -/
def getById (movie : Option MovieEntity) : HandlerResult MovieEntity :=
  match movie with
  | none => .error ⟨404, "Фильм не найден", "MovieController"⟩
  | some m => .response 200 m

/-- `MovieController.getToWatchList` as a function of the result of
`toWatchService.getToWatch`: responds 200 with `result?.list ?? []`. -/
def getToWatchList (result : Option ToWatchDoc) : HandlerResult (List String) :=
  .response 200 ((result.map ToWatchDoc.list).getD [])

/-- `MovieController.addToToWatchList`, acting on the requesting user's
to-watch list: the source throws the 404 "Фильм не найден" error when
`movieService.exists(req.body.movieId)` is TRUE, and otherwise adds the id
and responds 204 No Content. -/
def addToToWatchList (movies : List String) (toWatch : List String)
    (movieId : String) : HandlerResult Unit × List String :=
  if MovieService.exists movies movieId then
    (.error ⟨404, "Фильм не найден", "MovieController"⟩, toWatch)
  else
    (.response 204 (), ToWatchService.addToToWatch toWatch movieId)

/-- `MovieController.deleteFromToWatchList`, acting on the requesting user's
to-watch list: the source throws the 404 "Фильм не найден" error when
`movieService.exists(req.body.movieId)` is TRUE, and otherwise removes the
id and responds 204 No Content. -/
def deleteFromToWatchList (movies : List String) (toWatch : List String)
    (movieId : String) : HandlerResult Unit × List String :=
  if MovieService.exists movies movieId then
    (.error ⟨404, "Фильм не найден", "MovieController"⟩, toWatch)
  else
    (.response 204 (), ToWatchService.deleteFromToWatch toWatch movieId)

end MovieController

/-- `CreateCommentDto` (`modules/comment/dto/create-comment.dto.ts`),
reduced to the plain fields of a comment request. -/
structure CreateCommentDto where
  text : String
  rating : Nat
  date : String
deriving Repr, DecidableEq

/-- A stored comment document. -/
structure CommentEntity where
  movieId : String
  userId : String
  text : String
  rating : Nat
  date : String
deriving Repr, DecidableEq

/-- The request data the POST /:id/comments chain reads: the `:id` path
parameter, the authorized user's id and the parsed body. -/
structure CommentReq where
  movieId : String
  userId : String
  dto : CreateCommentDto
deriving Repr, DecidableEq

/-- Modelled from the spec: `CommentService.create` — persists a comment
"created attached to an existing movie and user" and returns it.  The
comment service's source file is not among the embedded sources; the comment
store is a list in insertion order. -/
def CommentService.create (movieId userId : String) (dto : CreateCommentDto)
    (db : List CommentEntity) : Option CommentEntity × List CommentEntity :=
  let c : CommentEntity :=
    { movieId := movieId, userId := userId,
      text := dto.text, rating := dto.rating, date := dto.date }
  (some c, db ++ [c])

/-- `MovieController.createComment`: calls `commentService.create` with the
path movie id, the user id and the body, throws 404 when it returned
nothing, and otherwise responds 201 Created with the comment. -/
def MovieController.createComment (req : CommentReq)
    (db : List CommentEntity) : HandlerResult CommentEntity × List CommentEntity :=
  match CommentService.create req.movieId req.userId req.dto db with
  | (none, dbNew) =>
    (.error ⟨404, "Комментарий не найден", "MovieController"⟩, dbNew)
  | (some c, dbNew) => (.response 201 c, dbNew)

/-- The route execution of `Controller.addRoute`
(`common/controller/controller.ts`): the route's middlewares run in list
order before the handler (`router[method](path, ...middlewares, handler)`),
each middleware either calls through (`none`) or terminates the chain with
an error, and a termination short-circuits: later middlewares and the
handler — hence any state change the handler performs — never run. -/
def runRoute {Req σ β : Type} (middlewares : List (Req → Option HttpError))
    (handler : Req → σ → HandlerResult β × σ) (req : Req) (s : σ) :
    HandlerResult β × σ :=
  match middlewares with
  | [] => handler req s
  | m :: rest =>
    match m req with
    | some e => (.error e, s)
    | none => runRoute rest handler req s

/-- Modelled from the spec: `DocumentExistsMiddleware` over the movie
service — "issues a lookup for a referenced document (movie) and fails with
Not-Found if absent".  Its source file is not among the embedded sources; it
terminates the chain with a 404 error when no movie with the request's `:id`
exists and calls through otherwise. -/
def documentExistsMiddleware (movies : List String) (req : CommentReq) :
    Option HttpError :=
  if MovieService.exists movies req.movieId then none
  else some ⟨404, "Movie not found", "DocumentExistsMiddleware"⟩

/-- The POST /:id/comments route as registered by `MovieController`:
authorization, object-id validation, comment-DTO validation, then the
movie-existence check, then the `createComment` handler.  The first three
middlewares live outside the embedded sources and are passed as
parameters. -/
def createCommentRoute (authorize objectIdValid dtoValid : CommentReq → Option HttpError)
    (movies : List String) (req : CommentReq) (db : List CommentEntity) :
    HandlerResult CommentEntity × List CommentEntity :=
  runRoute [authorize, objectIdValid, dtoValid, documentExistsMiddleware movies]
    MovieController.createComment req db

/-- One call against the to-watch service for a fixed user: the operations
reachable from the POST /to-watch and DELETE /to-watch handlers. -/
inductive ToWatchOp where
  | add (movieId : String)
  | del (movieId : String)
deriving Repr, DecidableEq

/-- Applying one to-watch operation to a user's list. -/
def applyToWatchOp (list : List String) : ToWatchOp → List String
  | .add movieId => ToWatchService.addToToWatch list movieId
  | .del movieId => ToWatchService.deleteFromToWatch list movieId

/-- A user's to-watch list after a sequence of add/delete operations,
starting from the empty list of a fresh user. -/
def runToWatchOps (ops : List ToWatchOp) : List String :=
  ops.foldl applyToWatchOp []

/-- A regular expression over characters, with character classes given by a
predicate: the constructs used by the email pattern of `UserEntity`. -/
inductive Regex where
  | emp : Regex
  | eps : Regex
  | cls : (Char → Bool) → Regex
  | cat : Regex → Regex → Regex
  | alt : Regex → Regex → Regex
  | star : Regex → Regex

/-- Whether the regular expression accepts the empty word. -/
def Regex.nullable : Regex → Bool
  | .emp => false
  | .eps => true
  | .cls _ => false
  | .cat a b => a.nullable && b.nullable
  | .alt a b => a.nullable || b.nullable
  | .star _ => true

/-- The Brzozowski derivative of the regular expression by a character. -/
def Regex.deriv : Regex → Char → Regex
  | .emp, _ => .emp
  | .eps, _ => .emp
  | .cls p, c => if p c then .eps else .emp
  | .cat a b, c =>
    if a.nullable then .alt (.cat (a.deriv c) b) (b.deriv c)
    else .cat (a.deriv c) b
  | .alt a b, c => .alt (a.deriv c) (b.deriv c)
  | .star a, c => .cat (a.deriv c) (.star a)

/-- Anchored match of the whole string against the regular expression. -/
def Regex.rmatch (r : Regex) (s : String) : Bool :=
  (s.toList.foldl Regex.deriv r).nullable

/-- `r+`: one or more repetitions. -/
def Regex.plus (r : Regex) : Regex := .cat r (.star r)

/-- `r?`: zero or one occurrence. -/
def Regex.opt (r : Regex) : Regex := .alt r .eps

/-- `r{2,4}`: two to four repetitions. -/
def Regex.rep2to4 (r : Regex) : Regex := .cat r (.cat r (.cat r.opt r.opt))

/-- JS `\w`: ASCII letters, digits and the underscore. -/
def wordChar (c : Char) : Bool :=
  (c ≥ 'a' && c ≤ 'z') || (c ≥ 'A' && c ≤ 'Z') || (c ≥ '0' && c ≤ '9') || c = '_'

/-- The class `[\w-\\.]` of the email pattern: word characters, the hyphen,
the backslash and the dot. -/
def localChar (c : Char) : Bool :=
  wordChar c || c = '-' || c = '\\' || c = '.'

/-- The class `[\w-]` of the email pattern: word characters and the
hyphen. -/
def domChar (c : Char) : Bool :=
  wordChar c || c = '-'

/-- The declared email pattern of `UserEntity.email`
(`match: /^([\w-\\.]+@([\w-]+\.)+[\w-]{2,4})?$/`): an anchored, OPTIONAL
group of a local part, `@`, one or more dot-terminated domain labels and a
two-to-four character final label. -/
def emailRegex : Regex :=
  Regex.opt (.cat (Regex.plus (.cls localChar))
    (.cat (.cls (fun c => c = '@'))
      (.cat (Regex.plus (.cat (Regex.plus (.cls domChar)) (.cls (fun c => c = '.'))))
        (Regex.rep2to4 (.cls domChar)))))

/-! ### Theorems -/

/-- C2: for every create-user request whose password has fewer than 6 or
more than 12 characters, `UserService.create` raises the typed
password-length error; no `ok` result (and hence no appended user document)
is produced, so the users collection is unchanged on error. -/
theorem create_rejects_bad_password (hash : String → String → String)
    (dto : CreateUserDto) (salt : String) (db : UserDb)
    (h : dto.password.length < 6 ∨ dto.password.length > 12) :
    UserService.create hash dto salt db = .error passwordLengthError := by
  unfold UserService.create UserEntity.setPassword
  rcases h with h | h <;> simp [h, Except.bind]

/-- Witness for C2: a 3-character password is rejected. -/
theorem create_rejects_bad_password_witness :
    UserService.create (fun p s => p ++ s)
      { email := "a@b.cc", name := "A", avatarUri := "", password := "abc" }
      "salt" [] = .error passwordLengthError :=
  create_rejects_bad_password _ _ _ _ (Or.inl (by decide))

/-- C5: when `movieService.findById` returns nothing, the GET /:id handler
`MovieController.getById` throws a typed `HttpError` with status 404 and
originating component name "MovieController". -/
theorem getById_none_is_404_MovieController :
    MovieController.getById none
      = .error ⟨404, "Фильм не найден", "MovieController"⟩ := rfl

/-- C9: when the to-watch service returns no document for the user, the GET
/to-watch handler responds 200 with the empty list instead of failing. -/
theorem getToWatchList_none_is_200_empty :
    MovieController.getToWatchList none = .response 200 [] := rfl

/-- C10: the declared email pattern of `UserEntity` accepts the empty
string: the whole group is optional, so the anchored match of "" succeeds. -/
theorem emailRegex_accepts_empty : Regex.rmatch emailRegex "" = true := rfl

/-- C1 fails on the code: with a movie "m1" stored, POST /to-watch for "m1"
throws the 404 "Фильм не найден" error even though the movie exists, while a
request for the absent id "ghost" proceeds and responds 204 — and DELETE
/to-watch behaves the same way.  The handlers' existence check is inverted
relative to the claim (and to their own error message). -/
theorem toWatch_handlers_inverted_check :
    MovieController.addToToWatchList ["m1"] [] "m1"
        = (.error ⟨404, "Фильм не найден", "MovieController"⟩, [])
      ∧ MovieController.addToToWatchList ["m1"] [] "ghost"
        = (.response 204 (), ["ghost"])
      ∧ MovieController.deleteFromToWatchList ["m1"] ["m1"] "m1"
        = (.error ⟨404, "Фильм не найден", "MovieController"⟩, ["m1"])
      ∧ MovieController.deleteFromToWatchList ["m1"] ["ghost"] "ghost"
        = (.response 204 (), []) := by
  refine ⟨rfl, ?_, rfl, ?_⟩ <;> decide

/-- C7: every successful `UserService.create` stores exactly one new user
document, whose password field is the salted digest of the supplied raw
password (the raw password only ever enters the entity before `setPassword`
overwrites it, so it is never persisted). -/
theorem create_stores_salted_hash (hash : String → String → String)
    (dto : CreateUserDto) (salt : String) (db : UserDb)
    (u : UserEntity) (dbNew : UserDb)
    (h : UserService.create hash dto salt db = .ok (u, dbNew)) :
    u.password = hash dto.password salt ∧ dbNew = db ++ [u] := by
  unfold UserService.create UserEntity.setPassword at h
  by_cases hlen : dto.password.length < 6 || dto.password.length > 12
  · simp [hlen, Except.bind] at h
  · simp [hlen, Except.bind, UserEntity.ofDto] at h
    obtain ⟨hu, hdb⟩ := h
    subst hu
    exact ⟨rfl, hdb.symm⟩

/-- Witness for C7: creating a user with password "secret" and salt "salt"
stores the digest "secretsalt". -/
theorem create_stores_salted_hash_witness :
    ({ email := "a@b.cc", avatarUri := "", name := "A",
       password := "secretsalt" } : UserEntity).password
        = (fun p s => p ++ s) "secret" "salt"
      ∧ ([{ email := "a@b.cc", avatarUri := "", name := "A",
            password := "secretsalt" }] : UserDb)
        = [] ++ [{ email := "a@b.cc", avatarUri := "", name := "A",
                   password := "secretsalt" }] :=
  create_stores_salted_hash (fun p s => p ++ s)
    { email := "a@b.cc", name := "A", avatarUri := "", password := "secret" }
    "salt" [] _ _ (by rfl)

/-- C6: `UserService.verifyUser` returns `none` exactly when no user with
the DTO's email is stored or the salted digest of the supplied password
differs from the stored password field; when the digest matches, it returns
the stored user. -/
theorem verifyUser_none_iff (hash : String → String → String)
    (dto : LoginUserDto) (salt : String) (db : UserDb) :
    (UserService.verifyUser hash dto salt db = none ↔
        UserService.findByEmail db dto.email = none ∨
          ∃ u, UserService.findByEmail db dto.email = some u ∧
            hash dto.password salt ≠ u.password)
      ∧ ∀ u, UserService.findByEmail db dto.email = some u →
          hash dto.password salt = u.password →
          UserService.verifyUser hash dto salt db = some u := by
  unfold UserService.verifyUser UserEntity.verifyPassword
  cases hfind : UserService.findByEmail db dto.email with
  | none => simp
  | some u =>
    constructor
    · by_cases hpw : hash dto.password salt = u.password <;> simp [hpw]
    · intro v hv hpw
      rw [Option.some.injEq] at hv
      subst hv
      simp [hpw]

/-- Witness for C6: a stored user whose password field is the digest of
"pw" with salt "salt" is returned by `verifyUser`. -/
theorem verifyUser_none_iff_witness :
    UserService.verifyUser (fun p s => p ++ s) ⟨"a@b.cc", "pw"⟩ "salt"
        [⟨"a@b.cc", "", "A", "pwsalt"⟩]
      = some ⟨"a@b.cc", "", "A", "pwsalt"⟩ :=
  (verifyUser_none_iff (fun p s => p ++ s) ⟨"a@b.cc", "pw"⟩ "salt"
    [⟨"a@b.cc", "", "A", "pwsalt"⟩]).2 _ (by decide) (by decide)

/-- Creating from a DTO stores a document carrying the DTO's email:
`setPassword` only rewrites the password field. -/
theorem create_ok_email (hash : String → String → String)
    (dto : CreateUserDto) (salt : String) (db : UserDb)
    (u : UserEntity) (dbNew : UserDb)
    (h : UserService.create hash dto salt db = .ok (u, dbNew)) :
    u.email = dto.email ∧ dbNew = db ++ [u] := by
  unfold UserService.create UserEntity.setPassword at h
  by_cases hlen : dto.password.length < 6 || dto.password.length > 12
  · simp [hlen, Except.bind] at h
  · simp [hlen, Except.bind, UserEntity.ofDto] at h
    obtain ⟨hu, hdb⟩ := h
    subst hu
    exact ⟨rfl, hdb.symm⟩

/-- C3: `UserService.findOrCreate` is idempotent — whenever a call succeeds
with user `u` and state `dbNew`, a second call with the same DTO and salt on
that state returns the same stored user `u` and leaves the state `dbNew`
unchanged, creating no second document. -/
theorem findOrCreate_idempotent (hash : String → String → String)
    (dto : CreateUserDto) (salt : String) (db : UserDb)
    (u : UserEntity) (dbNew : UserDb)
    (h : UserService.findOrCreate hash dto salt db = .ok (u, dbNew)) :
    UserService.findOrCreate hash dto salt dbNew = .ok (u, dbNew) := by
  unfold UserService.findOrCreate at h ⊢
  cases hfind : UserService.findByEmail db dto.email with
  | some existedUser =>
    rw [hfind] at h
    rw [Except.ok.injEq, Prod.mk.injEq] at h
    obtain ⟨hu, hdb⟩ := h
    subst hu; subst hdb
    rw [hfind]
  | none =>
    rw [hfind] at h
    obtain ⟨hmail, hdb⟩ := create_ok_email hash dto salt db u dbNew h
    have hfind2 : UserService.findByEmail dbNew dto.email = some u := by
      rw [hdb]
      unfold UserService.findByEmail at hfind ⊢
      rw [List.find?_append, hfind]
      simp [hmail]
    rw [hfind2]

/-- Witness for C3: after creating the user for a fresh email, a second
`findOrCreate` returns the stored user and does not grow the collection. -/
theorem findOrCreate_idempotent_witness :
    UserService.findOrCreate (fun p s => p ++ s)
      { email := "a@b.cc", name := "A", avatarUri := "", password := "secret" }
      "salt"
      [{ email := "a@b.cc", avatarUri := "", name := "A", password := "secretsalt" }]
      = .ok ({ email := "a@b.cc", avatarUri := "", name := "A", password := "secretsalt" },
             [{ email := "a@b.cc", avatarUri := "", name := "A", password := "secretsalt" }]) :=
  findOrCreate_idempotent (fun p s => p ++ s)
    { email := "a@b.cc", name := "A", avatarUri := "", password := "secret" }
    "salt" [] _ _ (by rfl)

/-- Applying any one to-watch operation preserves duplicate-freedom of the
user's list. -/
theorem applyToWatchOp_nodup (list : List String) (op : ToWatchOp)
    (h : list.Nodup) : (applyToWatchOp list op).Nodup := by
  cases op with
  | add movieId =>
    show (ToWatchService.addToToWatch list movieId).Nodup
    unfold ToWatchService.addToToWatch
    by_cases hmem : list.contains movieId = true
    · rw [if_pos hmem]; exact h
    · rw [if_neg hmem]
      rw [List.nodup_append]
      refine ⟨h, List.nodup_singleton _, ?_⟩
      intro a ha hb
      rw [List.mem_singleton] at hb
      subst hb
      exact hmem (List.elem_iff.mpr ha)
  | del movieId =>
    exact List.Nodup.filter _ h

/-- C4: for every sequence of add-to-to-watch and delete-from-to-watch
operations on a user's list, the resulting to-watch list contains each movie
id at most once. -/
theorem runToWatchOps_nodup (ops : List ToWatchOp) :
    (runToWatchOps ops).Nodup := by
  unfold runToWatchOps
  have general : ∀ (rest : List ToWatchOp) (list : List String),
      list.Nodup → (rest.foldl applyToWatchOp list).Nodup := by
    intro rest
    induction rest with
    | nil => intro list h; exact h
    | cons op rest ih =>
      intro list h
      exact ih _ (applyToWatchOp_nodup list op h)
  exact general ops [] List.nodup_nil

/-- C8: when the POST /:id/comments request names a movie id for which no
movie exists and the earlier middlewares call through, the document-existence
middleware terminates the chain with a 404 error before the `createComment`
handler runs, so the comment store is returned unchanged — no comment is
persisted. -/
theorem createCommentRoute_404_unchanged
    (authorize objectIdValid dtoValid : CommentReq → Option HttpError)
    (movies : List String) (req : CommentReq) (db : List CommentEntity)
    (hAuth : authorize req = none) (hOid : objectIdValid req = none)
    (hDto : dtoValid req = none)
    (hMovie : MovieService.exists movies req.movieId = false) :
    createCommentRoute authorize objectIdValid dtoValid movies req db
      = (.error ⟨404, "Movie not found", "DocumentExistsMiddleware"⟩, db) := by
  unfold createCommentRoute
  unfold runRoute
  rw [hAuth]
  unfold runRoute
  rw [hOid]
  unfold runRoute
  rw [hDto]
  unfold runRoute documentExistsMiddleware
  rw [hMovie]
  simp

/-- Witness for C8: with no movies stored and pass-through middlewares, a
comment request for movie "m1" is answered 404 and the empty comment store
stays empty. -/
theorem createCommentRoute_404_unchanged_witness :
    createCommentRoute (fun _ => none) (fun _ => none) (fun _ => none) []
        ⟨"m1", "u1", ⟨"great", 5, "2024-01-01"⟩⟩ []
      = (.error ⟨404, "Movie not found", "DocumentExistsMiddleware"⟩, []) :=
  createCommentRoute_404_unchanged _ _ _ _ _ _ rfl rfl rfl rfl

end WhatToWatch
